import Mathlib

/-!
Shallow embedding of the rosbag2 audio / PX4 extraction pipeline:
`src/export_to_wav.py` and `src/export_actuator_commands.py`.

Bags are modelled as lists of topic-tagged raw records; CDR payloads are
byte lists (each byte a `Nat`); file outputs are modelled as the data the
scripts write (rows of CSV cells, a WAV parameter block plus sample
buffer, metadata text lines).  `none` / `Except.error` model a Python
exception aborting the run.
-/

/-- One record of a bag as delivered by the reader: topic tag, bag
timestamp in nanoseconds, and the raw CDR payload bytes. -/
structure BagRecord where
  topic : String
  timestamp : Nat
  rawdata : List Nat
deriving DecidableEq

/-- Audio topic constant of export_to_wav.py (line 25). -/
def AUDIO_TOPIC : String := "/audio/audio"

/-- Motor command topic constant of export_actuator_commands.py (line 9). -/
def MOTOR_TOPIC : String := "/fmu/out/actuator_outputs"

/-- Record stream restricted to one topic: models
`reader.messages(connections=[x for x in reader.connections if x.topic == topic])`,
which yields the bag's time-ordered records of the chosen topic. -/
def messagesFor (bag : List BagRecord) (topic : String) : List BagRecord :=
  bag.filter (fun r => r.topic == topic)

/-- Read an unsigned integer of `k` bytes, little-endian, returning the value
and the remaining bytes; fails when the buffer is too short. -/
def readUIntLE : Nat → List Nat → Option (Nat × List Nat)
  | 0, bs => some (0, bs)
  | _ + 1, [] => none
  | k + 1, b :: bs =>
    match readUIntLE k bs with
    | some (v, rest) => some (b + 256 * v, rest)
    | none => none

/-- Read an unsigned integer of `k` bytes, big-endian. -/
def readUIntBE : Nat → List Nat → Option (Nat × List Nat)
  | 0, bs => some (0, bs)
  | _ + 1, [] => none
  | k + 1, b :: bs =>
    match readUIntBE k bs with
    | some (v, rest) => some (b * 256 ^ k + v, rest)
    | none => none

/-- Read an unsigned integer of `k` bytes with the endianness selected by the
CDR encapsulation header (`le = true` for little-endian). -/
def readUInt (le : Bool) (k : Nat) (bs : List Nat) : Option (Nat × List Nat) :=
  if le then readUIntLE k bs else readUIntBE k bs

/-- Read `n` consecutive unsigned integers of `width` bytes each. -/
def readWords (le : Bool) (width : Nat) : Nat → List Nat → Option (List Nat × List Nat)
  | 0, bs => some ([], bs)
  | n + 1, bs =>
    match readUInt le width bs with
    | some (v, rest) =>
      match readWords le width n rest with
      | some (vs, rest2) => some (v :: vs, rest2)
      | none => none
    | none => none

/-- Models `typestore.deserialize_cdr(rawdata, connection.msgtype)` for the
AudioData schema registered in export_to_wav.py (lines 28-40):
`sequence<uint8> data`.  The payload is a 4-byte CDR encapsulation header
(byte 1 selects endianness) followed by a 4-byte unsigned length prefix
(already 4-aligned at offset 0 of the body) and that many sample bytes.
Fails (the Python call raising) when the buffer is shorter than the header
plus the declared length. -/
def deserialize_cdr_audio (raw : List Nat) : Option (List Nat) :=
  match raw with
  | _ :: e :: _ :: _ :: body =>
    match readUInt (e != 0) 4 body with
    | some (len, rest) => if len ≤ rest.length then some (rest.take len) else none
    | none => none
  | _ => none

/-- Decoded ActuatorOutputs message of export_actuator_commands.py (lines
12-16): `uint64 timestamp; uint32 noutputs; float32[16] output`.  The
float32 entries are kept as their raw 32-bit little/big-endian word
patterns; their numeric reading plays no role in the pipeline's row
structure. -/
structure ActuatorOutputsMsg where
  timestamp : Nat
  noutputs : Nat
  output : List Nat
deriving DecidableEq

/-- Models `typestore.deserialize_cdr(rawdata, connection.msgtype)` for the
ActuatorOutputs schema: 4-byte encapsulation header, then the fields in
declaration order — u64 at body offset 0, u32 at offset 8, sixteen 32-bit
words at offset 12; every field already sits at its natural alignment, so
no padding is consumed.  Fails on a truncated buffer. -/
def deserialize_cdr_actuator (raw : List Nat) : Option ActuatorOutputsMsg :=
  match raw with
  | _ :: e :: _ :: _ :: body =>
    match readUInt (e != 0) 8 body with
    | some (ts, r1) =>
      match readUInt (e != 0) 4 r1 with
      | some (n, r2) =>
        match readWords (e != 0) 4 16 r2 with
        | some (out, _) => some ⟨ts, n, out⟩
        | none => none
      | none => none
    | none => none
  | _ => none

/-- Loop body of `collect_audio_data` (export_to_wav.py lines 53-58): fold
over the topic's records, capturing the first timestamp and extending the
byte buffer with each decoded payload; `none` models a deserialization
exception aborting the run. -/
def collectAudioLoop : List BagRecord → List Nat → Option Nat → Option (List Nat × Option Nat)
  | [], buf, ft => some (buf, ft)
  | r :: rest, buf, ft =>
    match deserialize_cdr_audio r.rawdata with
    | some d => collectAudioLoop rest (buf ++ d) (some (ft.getD r.timestamp))
    | none => none

/-- Models `collect_audio_data(reader, topic)` (export_to_wav.py lines
47-60): returns the accumulated audio bytes and the first record's
timestamp (`none` inside the pair when the topic is empty). -/
def collect_audio_data (bag : List BagRecord) (topic : String) :
    Option (List Nat × Option Nat) :=
  collectAudioLoop (messagesFor bag topic) [] none

/-- Error taxonomy of the spec relevant to the audio writer path. -/
inductive AudioError where
  | inconsistentStreamParameters
  | malformedAudioFrame
  | emptyTopicResult
deriving DecidableEq

/-- The WAV artifact as written: the framing parameters handed to the
writer and the raw sample bytes. -/
structure WavFile where
  sample_width : Nat
  frame_rate : Nat
  channels : Nat
  data : List Nat
deriving DecidableEq

/-- Modelled from the spec: the framing validation of the WAV Artifact
Writer.  In the source, `save_audio_to_file` (export_to_wav.py lines
62-71) delegates to the external pydub `AudioSegment`, whose code is not
part of this repository; per spec sections 4.4-4.5, when multi-channel
reshaping is required and the payload length is not evenly divisible by
the channel count the run fails with `MalformedAudioFrame`, and otherwise
a PCM WAV is emitted carrying exactly the given sample width (bytes per
sample), frame rate and channel count over the raw bytes. -/
def save_audio_to_file (audio_data : List Nat) (sample_width frame_rate channels : Nat) :
    Except AudioError WavFile :=
  if 1 < channels ∧ audio_data.length % channels ≠ 0 then
    Except.error AudioError.malformedAudioFrame
  else
    Except.ok ⟨sample_width, frame_rate, channels, audio_data⟩

/-- Python `f"{value}"` rendering of the optional first timestamp: the
literal `None` or the decimal numeral. -/
def pyStrOptNat : Option Nat → String
  | none => "None"
  | some n => toString n

/-- Models `save_metadata_to_file(metadata, output_file)` (export_to_wav.py
lines 73-78): one text line per pair, rendered `key: value`, in the
insertion order of the pairs (Python dicts preserve insertion order). -/
def save_metadata_to_file (metadata : List (String × String)) : List String :=
  metadata.map (fun kv => kv.1 ++ ": " ++ kv.2)

/-- The metadata pairs built in export_to_wav.py main (lines 106-111), in
insertion order, with values rendered the way the f-string writes them;
the sample width is multiplied by 8 there (comment in source: convert to
bits). -/
def wavMainMetadata (first_timestamp : Option Nat) (sample_width frame_rate channels : Nat) :
    List (String × String) :=
  [("First Audio Timestamp", pyStrOptNat first_timestamp),
   ("Sample Width", toString (sample_width * 8)),
   ("Frame Rate", toString frame_rate),
   ("Channels", toString channels)]

/-- Everything the audio run writes: the WAV artifact and the metadata
text lines. -/
structure WavRunOutput where
  wav : WavFile
  metadata_lines : List String
deriving DecidableEq

deriving instance DecidableEq for Except

/-- Models the audio-export run of export_to_wav.py main (lines 98-112):
collect the topic's audio bytes, write the WAV from the configured
parameters, then write the metadata lines.  `none` is an aborting
deserialization exception; `Except.error` a writer failure. -/
def wavMain (bag : List BagRecord) (sample_width frame_rate channels : Nat) :
    Option (Except AudioError WavRunOutput) :=
  match collect_audio_data bag AUDIO_TOPIC with
  | none => none
  | some (audio_data, first_timestamp) =>
    match save_audio_to_file audio_data sample_width frame_rate channels with
    | Except.error e => some (Except.error e)
    | Except.ok wav =>
      some (Except.ok ⟨wav,
        save_metadata_to_file (wavMainMetadata first_timestamp sample_width frame_rate channels)⟩)

/-- One CSV cell as the csv writer renders a Python value: a string
literal, an integer, or a list of numeric words. -/
inductive Cell where
  | str : String → Cell
  | nat : Nat → Cell
  | natList : List Nat → Cell
deriving DecidableEq

/-- Header row written by `save_messages_to_csv` (line 41). -/
def headerRow : List Cell := [Cell.str "Timestamp", Cell.str "NOutputs", Cell.str "Output"]

/-- Data rows of `save_messages_to_csv` (export_actuator_commands.py lines
42-44): one row per record, `[timestamp, msg.noutputs, list(msg.output)]`
where `timestamp` is the bag timestamp of the record.  The rows written
before a deserialization exception stay in the file, so the result is the
written rows paired with `true` when the loop completed. -/
def csvRowsLoop : List BagRecord → List (List Cell) × Bool
  | [] => ([], true)
  | r :: rest =>
    match deserialize_cdr_actuator r.rawdata with
    | some msg =>
      ([Cell.nat r.timestamp, Cell.nat msg.noutputs, Cell.natList msg.output] ::
        (csvRowsLoop rest).1, (csvRowsLoop rest).2)
    | none => ([], false)

/-- Models `save_messages_to_csv(reader, topic, csv_filename)`
(export_actuator_commands.py lines 36-45): the header row is written
first, then one data row per record of the topic in delivery order. -/
def save_messages_to_csv (bag : List BagRecord) (topic : String) :
    List (List Cell) × Bool :=
  (headerRow :: (csvRowsLoop (messagesFor bag topic)).1,
    (csvRowsLoop (messagesFor bag topic)).2)

/-- Visit trace of one actuator-exporter pass (the shared loop shape of
`process_messages` and `save_messages_to_csv`): each record is pulled from
the iterator — counting as one visit — and then deserialized; a
deserialization exception aborts the iteration there, so the trace stops
at the offending record.  Returns the visited records in order and whether
the pass completed without an exception. -/
def actuatorVisitLoop : List BagRecord → List BagRecord × Bool
  | [] => ([], true)
  | r :: rest =>
    match deserialize_cdr_actuator r.rawdata with
    | some _ => (r :: (actuatorVisitLoop rest).1, (actuatorVisitLoop rest).2)
    | none => ([r], false)

/-- Records visited, in order, by `process_messages(reader, topic)`
(export_actuator_commands.py lines 29-34), with the completion flag:
a forward pass over the topic's records that stops at the first record
whose payload fails to deserialize. -/
def process_messages_visits (bag : List BagRecord) (topic : String) :
    List BagRecord × Bool :=
  actuatorVisitLoop (messagesFor bag topic)

/-- Records visited, in order, by `save_messages_to_csv` (lines 36-45),
with the completion flag: the same forward pass with the same mid-stream
abort on a deserialization exception. -/
def save_messages_to_csv_visits (bag : List BagRecord) (topic : String) :
    List BagRecord × Bool :=
  actuatorVisitLoop (messagesFor bag topic)

/-- Records visited, in order, by export_actuator_commands.py main (lines
61-69), with the completion flag: `process_messages` runs first; if it
raises, the exception propagates out of main and `save_messages_to_csv`
never starts.  Only when the first pass completes does main start a fresh
`reader.messages` iteration for the CSV pass, traversing the topic's
stream a second time. -/
def actuator_main_visits (bag : List BagRecord) : List BagRecord × Bool :=
  if (process_messages_visits bag MOTOR_TOPIC).2 then
    ((process_messages_visits bag MOTOR_TOPIC).1 ++
      (save_messages_to_csv_visits bag MOTOR_TOPIC).1,
     (save_messages_to_csv_visits bag MOTOR_TOPIC).2)
  else
    ((process_messages_visits bag MOTOR_TOPIC).1, false)

/-- Visit trace of the audio collector's pass: like the actuator loop, a
deserialization exception aborts the iteration at the offending record. -/
def audioVisitLoop : List BagRecord → List BagRecord × Bool
  | [] => ([], true)
  | r :: rest =>
    match deserialize_cdr_audio r.rawdata with
    | some _ => (r :: (audioVisitLoop rest).1, (audioVisitLoop rest).2)
    | none => ([r], false)

/-- Records visited, in order, by export_to_wav.py main, with the
completion flag: the single pass of `collect_audio_data` over the audio
topic. -/
def wav_main_visits (bag : List BagRecord) : List BagRecord × Bool :=
  audioVisitLoop (messagesFor bag AUDIO_TOPIC)

/-- Modelled from the spec: `read(handle, topics)` of the Bag Reader
(spec section 4.2), realised by the external rosbags reader which is not
part of this repository: it delivers the container's records for the
requested topics ordered by timestamp ascending. -/
def bagReaderRead (container : List BagRecord) (topics : List String) : List BagRecord :=
  List.insertionSort (fun a b => a.timestamp ≤ b.timestamp)
    (container.filter (fun r => topics.contains r.topic))

/-- Little-endian rendering of a value in `k` bytes (test-input builder,
inverse of `readUIntLE`). -/
def bytesLE : Nat → Nat → List Nat
  | 0, _ => []
  | k + 1, v => v % 256 :: bytesLE k (v / 256)

/-- CDR encoding of an AudioData message (test-input builder):
little-endian encapsulation header, u32 length prefix, payload bytes. -/
def encAudioMsg (data : List Nat) : List Nat :=
  [0, 1, 0, 0] ++ bytesLE 4 data.length ++ data

/-- CDR encoding of an ActuatorOutputs message (test-input builder). -/
def encActuatorMsg (ts n : Nat) (out : List Nat) : List Nat :=
  [0, 1, 0, 0] ++ bytesLE 8 ts ++ bytesLE 4 n ++ (out.map (bytesLE 4)).flatten

/-- Concrete bag of spec Scenario A: three tabular records at timestamps
100, 200, 300 with `noutputs = 4`. -/
def scenarioABag : List BagRecord :=
  [⟨"/fmu/out/actuator_outputs", 100, encActuatorMsg 100 4 (List.replicate 16 0)⟩,
   ⟨"/fmu/out/actuator_outputs", 200, encActuatorMsg 200 4 (List.replicate 16 0)⟩,
   ⟨"/fmu/out/actuator_outputs", 300, encActuatorMsg 300 4 (List.replicate 16 0)⟩]

/-- Decoded messages of Scenario A's three records. -/
def scenarioAMsgs : List ActuatorOutputsMsg :=
  [⟨100, 4, List.replicate 16 0⟩, ⟨200, 4, List.replicate 16 0⟩, ⟨300, 4, List.replicate 16 0⟩]

/-- Concrete bag of spec Scenario C: two audio records whose payloads are
the interleaved sample bytes 1-4 and 5-8. -/
def scenarioCBag : List BagRecord :=
  [⟨"/audio/audio", 100, encAudioMsg [1, 2, 3, 4]⟩,
   ⟨"/audio/audio", 200, encAudioMsg [5, 6, 7, 8]⟩]

/-- Concrete bag holding one decodable motor-topic record (test fixture). -/
def oneMotorRecordBag : List BagRecord :=
  [⟨"/fmu/out/actuator_outputs", 100, encActuatorMsg 100 4 (List.replicate 16 0)⟩]

/-! ## Helper lemmas -/

/-- Folding records that all decode successfully extends the buffer by the
concatenated payloads and keeps an already-captured first timestamp. -/
theorem collectAudioLoop_decoded (recs : List BagRecord) (payloads : List (List Nat))
    (buf : List Nat) (t : Nat)
    (hd : recs.map (fun x => deserialize_cdr_audio x.rawdata) = payloads.map some) :
    collectAudioLoop recs buf (some t) = some (buf ++ payloads.flatten, some t) := by
  induction recs generalizing payloads buf with
  | nil =>
    cases payloads with
    | nil => simp [collectAudioLoop]
    | cons p ps => simp at hd
  | cons r rest ih =>
    cases payloads with
    | nil => simp at hd
    | cons p ps =>
      simp only [List.map_cons, List.cons.injEq] at hd
      obtain ⟨h1, h2⟩ := hd
      simp [collectAudioLoop, h1, ih ps (buf ++ p) h2]

/-- The CSV row loop over records that all decode successfully produces one
row per record, in order, and completes. -/
theorem csvRowsLoop_decoded (recs : List BagRecord) (msgs : List ActuatorOutputsMsg)
    (hd : recs.map (fun x => deserialize_cdr_actuator x.rawdata) = msgs.map some) :
    csvRowsLoop recs =
      (List.zipWith (fun (r : BagRecord) (m : ActuatorOutputsMsg) =>
        [Cell.nat r.timestamp, Cell.nat m.noutputs, Cell.natList m.output]) recs msgs, true) := by
  induction recs generalizing msgs with
  | nil =>
    cases msgs with
    | nil => simp [csvRowsLoop]
    | cons m ms => simp at hd
  | cons r rest ih =>
    cases msgs with
    | nil => simp at hd
    | cons m ms =>
      simp only [List.map_cons, List.cons.injEq] at hd
      obtain ⟨h1, h2⟩ := hd
      simp [csvRowsLoop, h1, ih ms h2]

/-- Writing an empty sample buffer always succeeds: zero is divisible by
every channel count, so the frame check cannot fire. -/
theorem save_audio_to_file_nil (sw fr ch : Nat) :
    save_audio_to_file [] sw fr ch = Except.ok ⟨sw, fr, ch, []⟩ := by
  unfold save_audio_to_file
  rw [if_neg]
  simp

/-- The only error the WAV writer can produce is the malformed-frame one. -/
theorem save_audio_to_file_errors (d : List Nat) (sw fr ch : Nat) (e : AudioError)
    (h : save_audio_to_file d sw fr ch = Except.error e) :
    e = AudioError.malformedAudioFrame := by
  unfold save_audio_to_file at h
  split at h
  · injection h with h1
    exact h1.symm
  · cases h

/-- When the WAV writer succeeds, the artifact carries exactly the
configured framing parameters over the accumulated bytes. -/
theorem save_audio_to_file_ok_inv (d : List Nat) (sw fr ch : Nat) (wav : WavFile)
    (h : save_audio_to_file d sw fr ch = Except.ok wav) : wav = ⟨sw, fr, ch, d⟩ := by
  unfold save_audio_to_file at h
  split at h
  · cases h
  · injection h with h1
    exact h1.symm

/-- Inversion of a successful audio run: the WAV holds the collected bytes
under the configured parameters and the metadata lines come from the main
metadata pairs. -/
theorem wavMain_ok_inv (bag : List BagRecord) (sw fr ch : Nat) (out : WavRunOutput)
    (h : wavMain bag sw fr ch = some (Except.ok out)) :
    ∃ buf ft, collect_audio_data bag AUDIO_TOPIC = some (buf, ft) ∧
      out = ⟨⟨sw, fr, ch, buf⟩, save_metadata_to_file (wavMainMetadata ft sw fr ch)⟩ := by
  unfold wavMain at h
  split at h
  · cases h
  · rename_i buf ft heq
    split at h
    · cases h
    · rename_i wav hs
      injection h with h1
      injection h1 with h2
      exact ⟨buf, ft, heq, by rw [← h2, save_audio_to_file_ok_inv buf sw fr ch wav hs]⟩

/-- An actuator pass over records that all decode visits every record of
the stream and completes without an exception. -/
theorem actuatorVisitLoop_decoded (recs : List BagRecord) (msgs : List ActuatorOutputsMsg)
    (hd : recs.map (fun x => deserialize_cdr_actuator x.rawdata) = msgs.map some) :
    actuatorVisitLoop recs = (recs, true) := by
  induction recs generalizing msgs with
  | nil => rfl
  | cons r rest ih =>
    cases msgs with
    | nil => simp at hd
    | cons m ms =>
      simp only [List.map_cons, List.cons.injEq] at hd
      obtain ⟨h1, h2⟩ := hd
      simp [actuatorVisitLoop, h1, ih ms h2]

/-- Every actuator pass — completed or aborted — visits a forward in-order
selection of the stream: no backtracking, no record twice. -/
theorem actuatorVisitLoop_sublist (recs : List BagRecord) :
    (actuatorVisitLoop recs).1.Sublist recs := by
  induction recs with
  | nil => simp [actuatorVisitLoop]
  | cons r rest ih =>
    cases h : deserialize_cdr_actuator r.rawdata with
    | some m => simpa [actuatorVisitLoop, h] using ih.cons₂ r
    | none => simp [actuatorVisitLoop, h]

/-- The audio pass likewise visits a forward in-order selection of the
stream. -/
theorem audioVisitLoop_sublist (recs : List BagRecord) :
    (audioVisitLoop recs).1.Sublist recs := by
  induction recs with
  | nil => simp [audioVisitLoop]
  | cons r rest ih =>
    cases h : deserialize_cdr_audio r.rawdata with
    | some d => simpa [audioVisitLoop, h] using ih.cons₂ r
    | none => simp [audioVisitLoop, h]

instance : IsTotal BagRecord (fun a b => a.timestamp ≤ b.timestamp) :=
  ⟨fun a b => Nat.le_total a.timestamp b.timestamp⟩

instance : IsTrans BagRecord (fun a b => a.timestamp ≤ b.timestamp) :=
  ⟨fun _ _ _ hab hbc => Nat.le_trans hab hbc⟩

/-! ## Claim theorems -/

/-- C1 (counterexample): feeding a second audio record after the first does
not fail — the run completes, silently accumulating both payloads under
the externally configured framing parameters. -/
theorem C1_counterexample :
    wavMain [⟨"/audio/audio", 100, encAudioMsg [1, 2]⟩,
             ⟨"/audio/audio", 200, encAudioMsg [3, 4]⟩] 2 48000 1 =
      some (Except.ok ⟨⟨2, 48000, 1, [1, 2, 3, 4]⟩,
        save_metadata_to_file (wavMainMetadata (some 100) 2 48000 1)⟩) := by decide

/-- C1 (amended): the audio schema carries no channel count or sample rate,
so no record can report stream parameters and no consistency check exists —
for every bag and configuration, the audio run never fails with
`InconsistentStreamParameters`. -/
theorem C1_no_inconsistent_failure (bag : List BagRecord) (sw fr ch : Nat) :
    wavMain bag sw fr ch ≠ some (Except.error AudioError.inconsistentStreamParameters) := by
  intro h
  unfold wavMain at h
  split at h
  · cases h
  · rename_i buf ft heq
    split at h
    · rename_i e hs
      injection h with h1
      injection h1 with h2
      exact (by cases save_audio_to_file_errors buf sw fr ch e hs ▸ h2) 
    · cases h

/-- C2 (counterexample): a run whose topics match zero records yields no
error at all — the CSV exporter writes a header-only file and the audio
exporter writes an empty WAV plus its metadata lines. -/
theorem C2_counterexample :
    save_messages_to_csv [] MOTOR_TOPIC = ([headerRow], true) ∧
    wavMain [] 2 48000 1 = some (Except.ok ⟨⟨2, 48000, 1, []⟩,
      ["First Audio Timestamp: None", "Sample Width: 16",
       "Frame Rate: 48000", "Channels: 1"]⟩) := by decide

/-- C2 (amended): zero matching records is not detected as an error: the
CSV artifact consists of exactly the header row and the audio run
succeeds, writing a WAV with an empty sample buffer and the metadata lines
with no first timestamp. -/
theorem C2_empty_topic_artifacts (bag : List BagRecord) (sw fr ch : Nat)
    (hm : messagesFor bag MOTOR_TOPIC = [])
    (ha : messagesFor bag AUDIO_TOPIC = []) :
    save_messages_to_csv bag MOTOR_TOPIC = ([headerRow], true) ∧
    wavMain bag sw fr ch = some (Except.ok ⟨⟨sw, fr, ch, []⟩,
      save_metadata_to_file (wavMainMetadata none sw fr ch)⟩) := by
  have hc : collect_audio_data bag AUDIO_TOPIC = some ([], none) := by
    unfold collect_audio_data
    rw [ha]
    rfl
  constructor
  · simp [save_messages_to_csv, hm, csvRowsLoop]
  · simp only [wavMain, hc, save_audio_to_file_nil]

/-- C2 (witness for the amended theorem, at the empty bag). -/
theorem C2_witness :
    save_messages_to_csv ([] : List BagRecord) MOTOR_TOPIC = ([headerRow], true) ∧
    wavMain [] 2 48000 1 = some (Except.ok ⟨⟨2, 48000, 1, []⟩,
      save_metadata_to_file (wavMainMetadata none 2 48000 1)⟩) :=
  C2_empty_topic_artifacts [] 2 48000 1 rfl rfl

/-- C3 (counterexample): a bag holding a single decodable motor-topic
record has that record iterated twice within one run of the actuator
exporter — once by `process_messages`, which completes, and once more by
`save_messages_to_csv`. -/
theorem C3_counterexample :
    actuator_main_visits oneMotorRecordBag =
      ([⟨"/fmu/out/actuator_outputs", 100, encActuatorMsg 100 4 (List.replicate 16 0)⟩,
        ⟨"/fmu/out/actuator_outputs", 100, encActuatorMsg 100 4 (List.replicate 16 0)⟩],
       true) := by
  decide

/-- C3 (amended): when every motor-topic record decodes, the actuator
exporter's main traverses the motor topic's stream exactly twice (print
pass, then CSV pass) — whereas a deserialization failure aborts the run
mid-first-pass and the second pass never starts, as the visit definitions
record; each individual pass, including the audio exporter's single pass,
visits a forward in-order selection of its topic's stream. -/
theorem C3_pass_structure (bag : List BagRecord) (msgs : List ActuatorOutputsMsg)
    (hd : (messagesFor bag MOTOR_TOPIC).map (fun x => deserialize_cdr_actuator x.rawdata) =
      msgs.map some) :
    actuator_main_visits bag =
      (messagesFor bag MOTOR_TOPIC ++ messagesFor bag MOTOR_TOPIC, true) ∧
    (process_messages_visits bag MOTOR_TOPIC).1.Sublist (messagesFor bag MOTOR_TOPIC) ∧
    (save_messages_to_csv_visits bag MOTOR_TOPIC).1.Sublist (messagesFor bag MOTOR_TOPIC) ∧
    (wav_main_visits bag).1.Sublist (messagesFor bag AUDIO_TOPIC) := by
  have h := actuatorVisitLoop_decoded (messagesFor bag MOTOR_TOPIC) msgs hd
  refine ⟨?_, ?_, ?_, ?_⟩
  · simp [actuator_main_visits, process_messages_visits, save_messages_to_csv_visits, h]
  · exact actuatorVisitLoop_sublist _
  · exact actuatorVisitLoop_sublist _
  · exact audioVisitLoop_sublist _

/-- C3 (witness for the amended theorem): the one-record decodable bag,
whose run completes with the two-pass trace. -/
theorem C3_witness :
    actuator_main_visits oneMotorRecordBag =
      (messagesFor oneMotorRecordBag MOTOR_TOPIC ++ messagesFor oneMotorRecordBag MOTOR_TOPIC,
        true) ∧
    (process_messages_visits oneMotorRecordBag MOTOR_TOPIC).1.Sublist
      (messagesFor oneMotorRecordBag MOTOR_TOPIC) ∧
    (save_messages_to_csv_visits oneMotorRecordBag MOTOR_TOPIC).1.Sublist
      (messagesFor oneMotorRecordBag MOTOR_TOPIC) ∧
    (wav_main_visits oneMotorRecordBag).1.Sublist (messagesFor oneMotorRecordBag AUDIO_TOPIC) :=
  C3_pass_structure oneMotorRecordBag [⟨100, 4, List.replicate 16 0⟩] (by decide)

/-- C4: for every bag whose audio-topic records all decode, with at least
one record, the accumulated buffer is the concatenation of the decoded
payloads in delivery order and the captured first timestamp is the first
record's timestamp. -/
theorem C4_audio_concat_first_timestamp (bag : List BagRecord) (r : BagRecord)
    (rest : List BagRecord) (payloads : List (List Nat))
    (hm : messagesFor bag AUDIO_TOPIC = r :: rest)
    (hd : (r :: rest).map (fun x => deserialize_cdr_audio x.rawdata) = payloads.map some) :
    collect_audio_data bag AUDIO_TOPIC = some (payloads.flatten, some r.timestamp) := by
  unfold collect_audio_data
  rw [hm]
  cases payloads with
  | nil => simp at hd
  | cons p ps =>
    simp only [List.map_cons, List.cons.injEq] at hd
    obtain ⟨h1, h2⟩ := hd
    simp [collectAudioLoop, h1, collectAudioLoop_decoded rest ps p r.timestamp h2]

/-- C4 (witness): Scenario C — payloads 1-4 then 5-8 accumulate to the
buffer 1-8 with first timestamp 100. -/
theorem C4_witness :
    collect_audio_data scenarioCBag AUDIO_TOPIC = some ([1, 2, 3, 4, 5, 6, 7, 8], some 100) := by
  have h := C4_audio_concat_first_timestamp scenarioCBag
    ⟨"/audio/audio", 100, encAudioMsg [1, 2, 3, 4]⟩
    [⟨"/audio/audio", 200, encAudioMsg [5, 6, 7, 8]⟩]
    [[1, 2, 3, 4], [5, 6, 7, 8]] (by decide) (by decide)
  simpa using h

/-- C5: when every motor-topic record decodes, the CSV consists of exactly
the header row `Timestamp, NOutputs, Output` followed by one data row per
record, in delivery order, so the written row count is the record count
plus one. -/
theorem C5_csv_header_and_rows (bag : List BagRecord) (msgs : List ActuatorOutputsMsg)
    (hd : (messagesFor bag MOTOR_TOPIC).map (fun x => deserialize_cdr_actuator x.rawdata) =
      msgs.map some) :
    save_messages_to_csv bag MOTOR_TOPIC =
      (headerRow :: List.zipWith (fun (r : BagRecord) (m : ActuatorOutputsMsg) =>
        [Cell.nat r.timestamp, Cell.nat m.noutputs, Cell.natList m.output])
        (messagesFor bag MOTOR_TOPIC) msgs, true) ∧
    (save_messages_to_csv bag MOTOR_TOPIC).1.length =
      (messagesFor bag MOTOR_TOPIC).length + 1 := by
  have h := csvRowsLoop_decoded (messagesFor bag MOTOR_TOPIC) msgs hd
  have hlen : msgs.length = (messagesFor bag MOTOR_TOPIC).length := by
    have := congrArg List.length hd
    simpa using this.symm
  constructor
  · simp [save_messages_to_csv, h]
  · simp [save_messages_to_csv, h, hlen]

/-- C5 (witness): Scenario A — three records at timestamps 100, 200, 300
yield the header row plus exactly three data rows in delivery order. -/
theorem C5_witness :
    save_messages_to_csv scenarioABag MOTOR_TOPIC =
      (headerRow :: List.zipWith (fun (r : BagRecord) (m : ActuatorOutputsMsg) =>
        [Cell.nat r.timestamp, Cell.nat m.noutputs, Cell.natList m.output])
        (messagesFor scenarioABag MOTOR_TOPIC) scenarioAMsgs, true) ∧
    (save_messages_to_csv scenarioABag MOTOR_TOPIC).1.length =
      (messagesFor scenarioABag MOTOR_TOPIC).length + 1 :=
  C5_csv_header_and_rows scenarioABag scenarioAMsgs (by decide)

/-- C6: with more than one channel and an accumulated byte count not evenly
divisible by the channel count, the WAV writer fails with
`MalformedAudioFrame` instead of writing a truncated artifact. -/
theorem C6_malformed_frame (d : List Nat) (sw fr ch : Nat)
    (h1 : 1 < ch) (h2 : d.length % ch ≠ 0) :
    save_audio_to_file d sw fr ch = Except.error AudioError.malformedAudioFrame := by
  unfold save_audio_to_file
  rw [if_pos ⟨h1, h2⟩]

/-- C6 (witness): three bytes over two channels fail the frame check. -/
theorem C6_witness :
    1 < 2 ∧ ([1, 2, 3] : List Nat).length % 2 ≠ 0 ∧
      save_audio_to_file [1, 2, 3] 2 48000 2 = Except.error AudioError.malformedAudioFrame :=
  ⟨by decide, by decide, C6_malformed_frame [1, 2, 3] 2 48000 2 (by decide) (by decide)⟩

/-- C7: the metadata writer renders every supplied pair as a `key: value`
line in insertion order, and the lines written by the audio run are the
first observed timestamp followed by the effective sample width, frame
rate and channel count. -/
theorem C7_metadata_format (metadata : List (String × String)) (ft : Option Nat)
    (sw fr ch : Nat) :
    save_metadata_to_file metadata = metadata.map (fun kv => kv.1 ++ ": " ++ kv.2) ∧
    save_metadata_to_file (wavMainMetadata ft sw fr ch) =
      ["First Audio Timestamp" ++ ": " ++ pyStrOptNat ft,
       "Sample Width" ++ ": " ++ toString (sw * 8),
       "Frame Rate" ++ ": " ++ toString fr,
       "Channels" ++ ": " ++ toString ch] :=
  ⟨rfl, rfl⟩

/-- C8: the Bag Reader's output sequence is non-decreasing in timestamp
for every container and topic set, and strictly ascending whenever the
delivered timestamps are pairwise distinct. -/
theorem C8_reader_ordering (container : List BagRecord) (topics : List String) :
    List.Sorted (fun a b : BagRecord => a.timestamp ≤ b.timestamp)
      (bagReaderRead container topics) ∧
    (((bagReaderRead container topics).map BagRecord.timestamp).Nodup →
      List.Sorted (fun a b : BagRecord => a.timestamp < b.timestamp)
        (bagReaderRead container topics)) := by
  have hs : List.Sorted (fun a b : BagRecord => a.timestamp ≤ b.timestamp)
      (bagReaderRead container topics) :=
    List.sorted_insertionSort _ _
  refine ⟨hs, fun hnd => ?_⟩
  have hne : (bagReaderRead container topics).Pairwise
      (fun a b => a.timestamp ≠ b.timestamp) := List.pairwise_map.mp hnd
  exact List.Pairwise.imp (fun h => Nat.lt_of_le_of_ne h.1 h.2) (hs.and hne)

/-- C8 (witness): a two-record container with distinct timestamps is
delivered strictly ascending. -/
theorem C8_witness :
    List.Sorted (fun a b : BagRecord => a.timestamp < b.timestamp)
      (bagReaderRead [⟨"/a", 2, []⟩, ⟨"/a", 1, []⟩] ["/a"]) :=
  (C8_reader_ordering [⟨"/a", 2, []⟩, ⟨"/a", 1, []⟩] ["/a"]).2 (by decide)

/-- C9: for every completed audio run, the WAV artifact is written with the
configured bytes-per-sample value while the metadata sidecar's second line
reports that same value multiplied by 8 (bits). -/
theorem C9_sample_width_units (bag : List BagRecord) (sw fr ch : Nat) (out : WavRunOutput)
    (h : wavMain bag sw fr ch = some (Except.ok out)) :
    out.wav.sample_width = sw ∧
    out.metadata_lines[1]? =
      some ("Sample Width" ++ ": " ++ toString (out.wav.sample_width * 8)) := by
  obtain ⟨buf, ft, hc, hout⟩ := wavMain_ok_inv bag sw fr ch out h
  subst hout
  exact ⟨rfl, rfl⟩

/-- C9 (witness): the empty run with sample width 2 writes the WAV with
value 2 and reports 16 in the metadata. -/
theorem C9_witness :
    (⟨⟨2, 48000, 1, []⟩,
      save_metadata_to_file (wavMainMetadata none 2 48000 1)⟩ : WavRunOutput).wav.sample_width
        = 2 ∧
    (⟨⟨2, 48000, 1, []⟩,
      save_metadata_to_file (wavMainMetadata none 2 48000 1)⟩ : WavRunOutput).metadata_lines[1]? =
      some ("Sample Width" ++ ": " ++ toString
        ((⟨⟨2, 48000, 1, []⟩,
          save_metadata_to_file (wavMainMetadata none 2 48000 1)⟩ :
            WavRunOutput).wav.sample_width * 8)) :=
  C9_sample_width_units [] 2 48000 1
    ⟨⟨2, 48000, 1, []⟩, save_metadata_to_file (wavMainMetadata none 2 48000 1)⟩ (by decide)

/-- C10: when the audio topic matches zero records, the collector returns
an empty buffer with no first timestamp, and the run still succeeds,
writing an empty WAV and a metadata file whose first line is the literal
`First Audio Timestamp: None`. -/
theorem C10_empty_audio_metadata (bag : List BagRecord) (sw fr ch : Nat)
    (ha : messagesFor bag AUDIO_TOPIC = []) :
    collect_audio_data bag AUDIO_TOPIC = some ([], none) ∧
    ∃ out : WavRunOutput, wavMain bag sw fr ch = some (Except.ok out) ∧
      out.wav.data = [] ∧
      out.metadata_lines.head? = some "First Audio Timestamp: None" := by
  have hc : collect_audio_data bag AUDIO_TOPIC = some ([], none) := by
    unfold collect_audio_data
    rw [ha]
    rfl
  refine ⟨hc, ⟨⟨sw, fr, ch, []⟩, save_metadata_to_file (wavMainMetadata none sw fr ch)⟩,
    ?_, rfl, ?_⟩
  · simp only [wavMain, hc, save_audio_to_file_nil]
  · rfl

/-- C10 (witness): the empty bag with the default configuration. -/
theorem C10_witness :
    collect_audio_data ([] : List BagRecord) AUDIO_TOPIC = some ([], none) ∧
    ∃ out : WavRunOutput, wavMain [] 2 48000 1 = some (Except.ok out) ∧
      out.wav.data = [] ∧
      out.metadata_lines.head? = some "First Audio Timestamp: None" :=
  C10_empty_audio_metadata [] 2 48000 1 rfl
